import Mathlib

/-!
# interp_image.cpp : host program of the OpenCL image-interpolation sample

A shallow embedding of `source/ch06b_interp_image/interp_image.cpp`.

The program is a straight line of library calls, each followed by a check that
terminates the process.  The embedding keeps

* the status every checked call returns as an input (`Env`),
* the calls the program issues, with the arguments that matter, as a trace of
  `Event`s, and
* how the run ends: `Res.ok` when the function returns, `Res.exit` when the process
  ends, with the status it ends with.

The three compile-time/initialised constants `SCALE_FACTOR`, `width` and `height`
are parameters (`Config`); `Config.program` carries the values of the source.
`cl_int` is a 32-bit two's-complement integer, `size_t` is taken to be 64 bits wide.

A handle is named by the variable of `main` that holds it (`Obj`), a device by the query
that stored it (`Dev`).

Lines 194-195 hand `free` the arrays `input_pixels` and `output_pixels` of line 111,
which no allocation call returned.  The C library ends the process there with `abort`:
the run stops at line 194 with the status of a process killed by `SIGABRT`, and the
releases of lines 196-201 and `return 0` are never reached (`free`, `ABORT_STATUS`).
Between the read of line 185 and that point the program uses the status the read
returned and the address of `input_pixels` only; no handle variable is read again, so
what the read stores beyond the end of `output_pixels` (`readImageBytes`,
`outputPixelsBytes`) has no bearing on the calls of the trace.
-/

namespace InterpImage

set_option linter.constructorNameAsVariable false

/-! ## Constants of the source -/

/-- Source line 2: `#define PROGRAM_FILE "interp.cl"`. -/
def PROGRAM_FILE : String := "interp.cl"

/-- Source line 3: `#define KERNEL_FUNC "interp"`. -/
def KERNEL_FUNC : String := "interp"

/-- Modelled from the spec: the "explicit not-found sentinel for device lookup" of
section 7.  The macro `CL_DEVICE_NOT_FOUND` comes from the header `CL/cl.h`, which is
not part of the sources; the Khronos headers fix it to `-1`. -/
def CL_DEVICE_NOT_FOUND : Int := -1

/-- The three values that size the images: the macro `SCALE_FACTOR` (line 5) and the
locals `width`, `height` (line 114). -/
structure Config where
  SCALE_FACTOR : Nat
  width : Nat
  height : Nat
  deriving DecidableEq, Repr

/-- The values written in the source: `SCALE_FACTOR 4`, `width = 4, height = 4`. -/
def Config.program : Config := ⟨4, 4, 4⟩

/-! ## Machine arithmetic -/

/-- Width of `size_t` in bits. -/
def SIZE_BITS : Nat := 64

/-- Multiplication in `size_t`, as in `SCALE_FACTOR * width`: the product wraps. -/
def mulSize (a b : Nat) : Nat := (a * b) % 2 ^ SIZE_BITS

/-- The range of a `cl_int` / `int` status. -/
def isInt32 (x : Int) : Prop := -(2 : Int) ^ 31 ≤ x ∧ x < (2 : Int) ^ 31

instance (x : Int) : Decidable (isInt32 x) := by
  unfold isInt32; exact inferInstance

/-- Two's-complement bit pattern of a 32-bit integer. -/
def toBits32 (x : Int) : Nat := (x % (2 : Int) ^ 32).toNat

/-- The signed value of a 32-bit pattern. -/
def ofBits32 (n : Nat) : Int := if n < 2 ^ 31 then (n : Int) else (n : Int) - (2 : Int) ^ 32

/-- The operator `|` on two `cl_int` values (used by `err |= ...`, line 161). -/
def orInt32 (a b : Int) : Int := ofBits32 (toBits32 a ||| toBits32 b)

/-- What `%u` prints for an `unsigned int` argument: its decimal digits. -/
def formatU (v : Nat) : String := Nat.repr (v % 2 ^ 32)

/-! ## Calls and traces -/

/-- The two device kinds queried by `create_device`; a value also stands for the
device that query stored in `dev`. -/
inductive Dev
  | GPU
  | CPU
  deriving DecidableEq, Repr

/-- The six OpenCL handles held by `main`, named after the variables holding them. -/
inductive Obj
  | context
  | program
  | kernel
  | input_image
  | output_image
  | queue
  deriving DecidableEq, Repr

/-- Host memory blocks passed to library calls. -/
inductive HostBuf
  | input_pixels
  | output_pixels
  | program_buffer
  | program_log
  deriving DecidableEq, Repr

/-- Whether the block was returned by `malloc`: `program_buffer` (line 63) and
`program_log` (line 87) were; `input_pixels` and `output_pixels` are arrays local to
`main` (line 111). -/
def HostBuf.fromMalloc : HostBuf → Bool
  | .program_buffer => true
  | .program_log => true
  | .input_pixels => false
  | .output_pixels => false

/-- Number of the signal `SIGABRT`, raised by `abort`. -/
def SIGABRT : Nat := 6

/-- Status of a process that `abort` ended: 128 plus the number of the signal. -/
def ABORT_STATUS : Nat := 128 + SIGABRT

/-- Memory flags used by the two `clCreateImage2D` calls. -/
inductive MemFlag
  | READ_ONLY
  | WRITE_ONLY
  | COPY_HOST_PTR
  deriving DecidableEq, Repr

/-- Channel order of `png_format`. -/
inductive ChannelOrder
  | LUMINANCE
  deriving DecidableEq, Repr

/-- Channel data type of `png_format`. -/
inductive ChannelType
  | UNORM_INT16
  deriving DecidableEq, Repr

/-- The `cl_image_format` filled in at lines 134-135. -/
structure ImageFormat where
  order : ChannelOrder
  dataType : ChannelType
  deriving DecidableEq, Repr

/-- One call issued by the program, with the arguments the properties speak of. -/
inductive Event
  | clGetPlatformIDs
  | clGetDeviceIDs (ty : Dev)
  | perror (msg : String)
  | printf (text : String)
  | fopen (filename : String) (mode : String)
  | fseek
  | ftell
  | rewind
  | malloc (buf : HostBuf)
  | fread (into : HostBuf)
  | fclose
  | free (buf : HostBuf)
  | clCreateContext (dev : Dev)
  | clCreateProgramWithSource (ctx : Obj) (src : HostBuf)
  | sprintf (text : String)
  | clBuildProgram (prog : Obj) (options : String)
  | clGetProgramBuildInfo (prog : Obj) (dev : Dev) (into : Option HostBuf)
  | clCreateKernel (prog : Obj) (name : String)
  | clCreateImage2D (result : Obj) (ctx : Obj) (flags : List MemFlag) (fmt : ImageFormat)
      (width height rowPitch : Nat) (hostPtr : Option HostBuf)
  | clSetKernelArg (kern : Obj) (index : Nat) (value : Obj)
  | clCreateCommandQueue (ctx : Obj) (dev : Dev)
  | clEnqueueNDRangeKernel (q kern : Obj) (workDim : Nat) (globalSize : List Nat)
  | clEnqueueReadImage (q image : Obj) (blocking : Bool) (origin region : List Nat)
      (rowPitch slicePitch : Nat) (dst : HostBuf)
  | clReleaseMemObject (h : Obj)
  | clReleaseKernel (h : Obj)
  | clReleaseCommandQueue (h : Obj)
  | clReleaseProgram (h : Obj)
  | clReleaseContext (h : Obj)
  deriving DecidableEq, Repr

/-- What the library calls answer on one run: the status of every checked call,
whether `fopen` yields a file, and the build log the runtime hands out. -/
structure Env where
  platformIDs : Int
  deviceGPU : Int
  deviceCPU : Int
  createContext : Int
  fopenOk : Bool
  createProgram : Int
  buildProgram : Int
  buildLog : String
  createKernel : Int
  createInputImage : Int
  createOutputImage : Int
  setArg0 : Int
  setArg1 : Int
  createQueue : Int
  enqueueKernel : Int
  readImage : Int

/-- Every status is a 32-bit signed integer. -/
def Env.wellTyped (env : Env) : Prop :=
  isInt32 env.platformIDs ∧ isInt32 env.deviceGPU ∧ isInt32 env.deviceCPU ∧
  isInt32 env.createContext ∧ isInt32 env.createProgram ∧ isInt32 env.buildProgram ∧
  isInt32 env.createKernel ∧ isInt32 env.createInputImage ∧
  isInt32 env.createOutputImage ∧ isInt32 env.setArg0 ∧ isInt32 env.setArg1 ∧
  isInt32 env.createQueue ∧ isInt32 env.enqueueKernel ∧ isInt32 env.readImage

instance (env : Env) : Decidable env.wellTyped := by
  unfold Env.wellTyped; exact inferInstance

/-- How a piece of the program ends: it returns a value, or the process ends with a
status (the code passed to `exit`, or `ABORT_STATUS`); both with the calls issued so
far. -/
inductive Res (α : Type)
  | ok (trace : List Event) (val : α)
  | exit (trace : List Event) (code : Nat)
  deriving DecidableEq, Repr

/-- Calls issued. -/
def Res.trace {α : Type} : Res α → List Event
  | .ok t _ => t
  | .exit t _ => t

/-- Put the calls issued earlier in front of a result. -/
def Res.prepend {α : Type} (t : List Event) : Res α → Res α
  | .ok t2 a => .ok (t ++ t2) a
  | .exit t2 c => .exit (t ++ t2) c

/-- Sequencing: the second part runs only when the first returned. -/
def Res.bind {α β : Type} (r : Res α) (f : α → Res β) : Res β :=
  match r with
  | .ok t a => (f a).prepend t
  | .exit t c => .exit t c

instance : Monad Res where
  pure a := .ok [] a
  bind := Res.bind

/-- Issue one call. -/
def call (e : Event) : Res Unit := .ok [e] ()

/-- The library function `exit`. -/
def exit {α : Type} (code : Nat) : Res α := .exit [] code

/-- The library function `free`.  It returns when it is given a block of `malloc`.
Given any other address the allocator finds no block header, reports an invalid
pointer and calls `abort`: the process ends there. -/
def free (buf : HostBuf) : Res Unit :=
  if buf.fromMalloc = true then .ok [.free buf] () else .exit [.free buf] ABORT_STATUS

/-! ## The program -/

/-- Lines 18-42: `create_device`. -/
def create_device (env : Env) : Res Dev := do
  /- Identify a platform -/
  call .clGetPlatformIDs
  let mut err := env.platformIDs
  if err < 0 then
    call (.perror "Couldn't identify a platform")
    exit 1
  /- Access a device -/
  call (.clGetDeviceIDs .GPU)
  err := env.deviceGPU
  let mut dev := Dev.GPU
  if err = CL_DEVICE_NOT_FOUND then
    call (.clGetDeviceIDs .CPU)
    err := env.deviceCPU
    dev := Dev.CPU
  if err < 0 then
    call (.perror "Couldn't access any devices")
    exit 1
  return dev

/-- Lines 45-97: `build_program`; the macro `SCALE_FACTOR` is the parameter `scale`. -/
def build_program (scale : Nat) (env : Env) (ctx : Obj) (dev : Dev) (filename : String) :
    Res Obj := do
  /- Read program file and place content into buffer -/
  call (.fopen filename "r")
  if env.fopenOk = false then
    call (.perror "Couldn't find the program file")
    exit 1
  call .fseek
  call .ftell
  call .rewind
  call (.malloc .program_buffer)
  call (.fread .program_buffer)
  call .fclose
  /- Create program from file -/
  call (.clCreateProgramWithSource ctx .program_buffer)
  let program := Obj.program
  let err := env.createProgram
  if err < 0 then
    call (.perror "Couldn't create the program")
    exit 1
  free .program_buffer
  /- Create build argument -/
  let arg := "-DSCALE=" ++ formatU scale
  call (.sprintf arg)
  /- Build program -/
  call (.clBuildProgram program arg)
  let err := env.buildProgram
  if err < 0 then
    /- Find size of log and print to std output -/
    call (.clGetProgramBuildInfo program dev none)
    call (.malloc .program_log)
    call (.clGetProgramBuildInfo program dev (some .program_log))
    call (.printf (env.buildLog ++ "\n"))
    free .program_log
    exit 1
  return program

/-- Lines 99-203: `main`.  The result is the value `main` returns, or the status the
process ends with before that. -/
def main (cfg : Config) (env : Env) : Res Nat := do
  let width := cfg.width
  let height := cfg.height
  /- Create a device and context -/
  let device ← create_device env
  call (.clCreateContext device)
  let context := Obj.context
  let err := env.createContext
  if err < 0 then
    call (.perror "Couldn't create a context")
    exit 1
  /- Create kernel -/
  let program ← build_program cfg.SCALE_FACTOR env context device PROGRAM_FILE
  call (.clCreateKernel program KERNEL_FUNC)
  let kernel := Obj.kernel
  let err := env.createKernel
  if err < 0 then
    call (.printf ("Couldn't create a kernel: " ++ toString err))
    exit 1
  /- Create input image object -/
  let png_format : ImageFormat := ⟨.LUMINANCE, .UNORM_INT16⟩
  call (.clCreateImage2D .input_image context [.READ_ONLY, .COPY_HOST_PTR]
    png_format width height 0 (some .input_pixels))
  let input_image := Obj.input_image
  let err := env.createInputImage
  if err < 0 then
    call (.perror "Couldn't create the image object")
    exit 1
  /- Create output image object -/
  call (.clCreateImage2D .output_image context [.WRITE_ONLY]
    png_format (mulSize cfg.SCALE_FACTOR width) (mulSize cfg.SCALE_FACTOR height) 0 none)
  let output_image := Obj.output_image
  let err := env.createOutputImage
  if err < 0 then
    call (.perror "Couldn't create the image object")
    exit 1
  /- Create buffer -/
  if err < 0 then
    call (.perror "Couldn't create a buffer")
    exit 1
  /- Create kernel arguments -/
  call (.clSetKernelArg kernel 0 input_image)
  let err := env.setArg0
  call (.clSetKernelArg kernel 1 output_image)
  let err := orInt32 err env.setArg1
  if err < 0 then
    call (.printf "Couldn't set a kernel argument")
    exit 1
  /- Create a command queue -/
  call (.clCreateCommandQueue context device)
  let queue := Obj.queue
  let err := env.createQueue
  if err < 0 then
    call (.perror "Couldn't create a command queue")
    exit 1
  /- Enqueue kernel -/
  let global_size := [width, height]
  call (.clEnqueueNDRangeKernel queue kernel 2 global_size)
  let err := env.enqueueKernel
  if err < 0 then
    call (.perror "Couldn't enqueue the kernel")
    exit 1
  /- Read the image object -/
  let origin := [0, 0, 0]
  let region := [mulSize cfg.SCALE_FACTOR width, mulSize cfg.SCALE_FACTOR height, 1]
  call (.clEnqueueReadImage queue output_image true origin region 0 0 .output_pixels)
  let err := env.readImage
  if err < 0 then
    call (.perror "Couldn't read from the image object")
    exit 1
  /- Deallocate resources -/
  free .input_pixels
  free .output_pixels
  call (.clReleaseMemObject input_image)
  call (.clReleaseMemObject output_image)
  call (.clReleaseKernel kernel)
  call (.clReleaseCommandQueue queue)
  call (.clReleaseProgram program)
  call (.clReleaseContext context)
  return 0

/-- The status the process ends with: the value `main` returns, the code passed to
`exit`, or `ABORT_STATUS`. -/
def exitCode : Res Nat → Nat
  | .ok _ v => v
  | .exit _ c => c

/-! ## Observations on runs -/

/-- Calls into the OpenCL library, as opposed to the C library. -/
def Event.isOpenCL : Event → Bool
  | .perror _ | .printf _ | .fopen _ _ | .fseek | .ftell | .rewind | .malloc _
  | .fread _ | .fclose | .free _ | .sprintf _ => false
  | _ => true

/-- The handle a creation call returns, named by the variable it is stored in. -/
def Event.creates : Event → Option Obj
  | .clCreateContext _ => some .context
  | .clCreateProgramWithSource _ _ => some .program
  | .clCreateKernel _ _ => some .kernel
  | .clCreateImage2D r _ _ _ _ _ _ _ => some r
  | .clCreateCommandQueue _ _ => some .queue
  | _ => none

/-- The handle a release call is given. -/
def Event.releases : Event → Option Obj
  | .clReleaseMemObject h => some h
  | .clReleaseKernel h => some h
  | .clReleaseCommandQueue h => some h
  | .clReleaseProgram h => some h
  | .clReleaseContext h => some h
  | _ => none

/-- The pairs (created handle, handle it was created from) of a creation call. -/
def Event.dependsOn : Event → List (Obj × Obj)
  | .clCreateProgramWithSource ctx _ => [(.program, ctx)]
  | .clCreateKernel prog _ => [(.kernel, prog)]
  | .clCreateImage2D r ctx _ _ _ _ _ _ => [(r, ctx)]
  | .clCreateCommandQueue ctx _ => [(.queue, ctx)]
  | _ => []

/-- Handles created on a trace, in creation order. -/
def creations (t : List Event) : List Obj := t.filterMap Event.creates

/-- Handles released on a trace, in release order. -/
def releases (t : List Event) : List Obj := t.filterMap Event.releases

/-- All pairs (dependent handle, handle it depends on) of a trace. -/
def dependencies (t : List Event) : List (Obj × Obj) := (t.map Event.dependsOn).flatten

/-- A kernel dispatch. -/
def Event.isDispatch : Event → Bool
  | .clEnqueueNDRangeKernel _ _ _ _ => true
  | _ => false

/-- An image read-back. -/
def Event.isRead : Event → Bool
  | .clEnqueueReadImage _ _ _ _ _ _ _ _ => true
  | _ => false

/-- Creation of a kernel, image or command queue, or a dispatch. -/
def Event.isLaterWork : Event → Bool
  | .clCreateKernel _ _ => true
  | .clCreateImage2D _ _ _ _ _ _ _ _ => true
  | .clCreateCommandQueue _ _ => true
  | .clEnqueueNDRangeKernel _ _ _ _ => true
  | _ => false

/-- Calls that are not part of the straight line from `clCreateContext` to the `free`
of line 194: the platform and device queries, and what a failed check does before
it calls `exit` (messages, and the retrieval of the build log). -/
def Event.isAside : Event → Bool
  | .clGetPlatformIDs => true
  | .clGetDeviceIDs _ => true
  | .perror _ => true
  | .printf _ => true
  | .clGetProgramBuildInfo _ _ _ => true
  | .malloc .program_log => true
  | .free .program_log => true
  | _ => false

/-- Width and height given to the calls that create the output image. -/
def outputImageDims (t : List Event) : List (Nat × Nat) :=
  t.filterMap fun
    | .clCreateImage2D .output_image _ _ _ w h _ _ => some (w, h)
    | _ => none

/-- Origin and region given to the calls that read the output image. -/
def readRegions (t : List Event) : List (List Nat × List Nat) :=
  t.filterMap fun
    | .clEnqueueReadImage _ .output_image _ origin region _ _ _ => some (origin, region)
    | _ => none

/-- Build options given to `clBuildProgram`. -/
def buildOptions (t : List Event) : List String :=
  t.filterMap fun
    | .clBuildProgram _ opts => some opts
    | _ => none

/-- A checked call failed: its status is negative, or `fopen` gave `NULL`. -/
def Env.callFailed (env : Env) : Event → Bool
  | .clGetPlatformIDs => env.platformIDs < 0
  | .clGetDeviceIDs .GPU => env.deviceGPU < 0
  | .clGetDeviceIDs .CPU => env.deviceCPU < 0
  | .clCreateContext _ => env.createContext < 0
  | .fopen _ _ => env.fopenOk = false
  | .clCreateProgramWithSource _ _ => env.createProgram < 0
  | .clBuildProgram _ _ => env.buildProgram < 0
  | .clCreateKernel _ _ => env.createKernel < 0
  | .clCreateImage2D .input_image _ _ _ _ _ _ _ => env.createInputImage < 0
  | .clCreateImage2D .output_image _ _ _ _ _ _ _ => env.createOutputImage < 0
  | .clSetKernelArg _ 0 _ => env.setArg0 < 0
  | .clSetKernelArg _ 1 _ => env.setArg1 < 0
  | .clCreateCommandQueue _ _ => env.createQueue < 0
  | .clEnqueueNDRangeKernel _ _ _ _ => env.enqueueKernel < 0
  | .clEnqueueReadImage _ _ _ _ _ _ _ _ => env.readImage < 0
  | _ => false

/-- As `callFailed`, except that the GPU query answering `CL_DEVICE_NOT_FOUND` is not a
failure: line 33 then replaces its status by that of the CPU query. -/
def Env.checkFailed (env : Env) : Event → Bool
  | .clGetDeviceIDs .GPU => env.deviceGPU < 0 ∧ env.deviceGPU ≠ CL_DEVICE_NOT_FOUND
  | e => env.callFailed e

/-- Every check of `main` that precedes the dispatch of line 176 passes. -/
def Env.passesSetup (env : Env) : Prop :=
  ¬ env.platformIDs < 0 ∧
  (env.deviceGPU = CL_DEVICE_NOT_FOUND → ¬ env.deviceCPU < 0) ∧
  (¬ env.deviceGPU = CL_DEVICE_NOT_FOUND → ¬ env.deviceGPU < 0) ∧
  ¬ env.createContext < 0 ∧ env.fopenOk = true ∧ ¬ env.createProgram < 0 ∧
  ¬ env.buildProgram < 0 ∧ ¬ env.createKernel < 0 ∧ ¬ env.createInputImage < 0 ∧
  ¬ env.createOutputImage < 0 ∧ ¬ orInt32 env.setArg0 env.setArg1 < 0 ∧
  ¬ env.createQueue < 0

/-! ## Sizes of host memory -/

/-- Source line 52: `char arg[20]`. -/
def ARG_SIZE : Nat := 20

/-- The size of a `float`. -/
def SIZEOF_FLOAT : Nat := 4

/-- Source line 111: `float output_pixels[16* SCALE_FACTOR]`, in bytes. -/
def outputPixelsBytes (cfg : Config) : Nat := 16 * cfg.SCALE_FACTOR * SIZEOF_FLOAT

/-- Channels per pixel of a channel order. -/
def ChannelOrder.channels : ChannelOrder → Nat
  | .LUMINANCE => 1

/-- Bytes per channel of a channel data type. -/
def ChannelType.bytes : ChannelType → Nat
  | .UNORM_INT16 => 2

/-- Bytes of one pixel. -/
def ImageFormat.pixelBytes (fmt : ImageFormat) : Nat := fmt.order.channels * fmt.dataType.bytes

/-- Bytes `clEnqueueReadImage` writes to host memory for a region `[w, h, d]`: a row
pitch of `0` stands for tightly packed rows of `w` pixels. -/
def readImageBytes (fmt : ImageFormat) (region : List Nat) (rowPitch : Nat) : Nat :=
  match region with
  | [w, h, d] => (if rowPitch = 0 then w * fmt.pixelBytes else rowPitch) * h * d
  | _ => 0

/-- The format an image of the trace was created with. -/
def imageFormatOf (t : List Event) (img : Obj) : Option ImageFormat :=
  t.findSome? fun
    | .clCreateImage2D r _ _ fmt _ _ _ _ => if r = img then some fmt else none
    | _ => none

/-- For every read-back of the trace: the host block written and the bytes written. -/
def hostWrites (t : List Event) : List (HostBuf × Nat) :=
  t.filterMap fun
    | .clEnqueueReadImage _ img _ _ region rowPitch _ dst =>
        (imageFormatOf t img).map fun fmt => (dst, readImageBytes fmt region rowPitch)
    | _ => none

/-! ## Concrete runs -/

/-- Every call succeeds with status `0` (`CL_SUCCESS`). -/
def envOk : Env :=
  { platformIDs := 0, deviceGPU := 0, deviceCPU := 0, createContext := 0, fopenOk := true,
    createProgram := 0, buildProgram := 0, buildLog := "", createKernel := 0,
    createInputImage := 0, createOutputImage := 0, setArg0 := 0, setArg1 := 0,
    createQueue := 0, enqueueKernel := 0, readImage := 0 }

/-- No GPU: the GPU query answers `CL_DEVICE_NOT_FOUND`, everything else succeeds. -/
def envNoGpu : Env := { envOk with deviceGPU := -1 }

/-- The kernel source file cannot be opened. -/
def envNoFile : Env := { envOk with fopenOk := false }

/-- The kernel source does not compile (`CL_BUILD_PROGRAM_FAILURE`). -/
def envBuildFails : Env := { envOk with buildProgram := -11, buildLog := "interp.cl: error" }

/-- The dispatch is refused (`CL_OUT_OF_RESOURCES`). -/
def envNoDispatch : Env := { envOk with enqueueKernel := -5 }

/-- A width for which `SCALE_FACTOR * width` does not fit in `size_t`. -/
def cfgWide : Config := ⟨2, 2 ^ 63, 4⟩

/-- The calls `create_device` issues when it returns device `d`. -/
def callsDevice : Dev → List Event
  | .GPU => [.clGetPlatformIDs, .clGetDeviceIDs .GPU]
  | .CPU => [.clGetPlatformIDs, .clGetDeviceIDs .GPU, .clGetDeviceIDs .CPU]

/-- The calls `main` issues after `create_device` returned `d`, when every check passes:
the last one is the `free` of line 194, which ends the process. -/
def callsMain (cfg : Config) (d : Dev) : List Event :=
  [ .clCreateContext d,
    .fopen PROGRAM_FILE "r",
    .fseek,
    .ftell,
    .rewind,
    .malloc .program_buffer,
    .fread .program_buffer,
    .fclose,
    .clCreateProgramWithSource .context .program_buffer,
    .free .program_buffer,
    .sprintf ("-DSCALE=" ++ formatU cfg.SCALE_FACTOR),
    .clBuildProgram .program ("-DSCALE=" ++ formatU cfg.SCALE_FACTOR),
    .clCreateKernel .program KERNEL_FUNC,
    .clCreateImage2D .input_image .context [.READ_ONLY, .COPY_HOST_PTR]
      ⟨.LUMINANCE, .UNORM_INT16⟩ cfg.width cfg.height 0 (some .input_pixels),
    .clCreateImage2D .output_image .context [.WRITE_ONLY]
      ⟨.LUMINANCE, .UNORM_INT16⟩ (mulSize cfg.SCALE_FACTOR cfg.width)
      (mulSize cfg.SCALE_FACTOR cfg.height) 0 none,
    .clSetKernelArg .kernel 0 .input_image,
    .clSetKernelArg .kernel 1 .output_image,
    .clCreateCommandQueue .context d,
    .clEnqueueNDRangeKernel .queue .kernel 2 [cfg.width, cfg.height],
    .clEnqueueReadImage .queue .output_image true [0, 0, 0]
      [mulSize cfg.SCALE_FACTOR cfg.width, mulSize cfg.SCALE_FACTOR cfg.height, 1] 0 0
      .output_pixels,
    .free .input_pixels ]

/-- A run that stops after the first `n` calls of `callsMain`, then issues `msgs` and
calls `exit(1)`. -/
def stopAfter (cfg : Config) (d : Dev) (n : Nat) (msgs : List Event) : Res Nat :=
  .exit (callsDevice d ++ (callsMain cfg d).take n ++ msgs) 1

/-- The checks of `main` after `create_device` returned `d`, as nested conditions. -/
def afterDevice (cfg : Config) (env : Env) (d : Dev) : Res Nat :=
  if env.createContext < 0 then
    stopAfter cfg d 1 [.perror "Couldn't create a context"]
  else if env.fopenOk = false then
    stopAfter cfg d 2 [.perror "Couldn't find the program file"]
  else if env.createProgram < 0 then
    stopAfter cfg d 9 [.perror "Couldn't create the program"]
  else if env.buildProgram < 0 then
    stopAfter cfg d 12 [.clGetProgramBuildInfo .program d none, .malloc .program_log,
      .clGetProgramBuildInfo .program d (some .program_log),
      .printf (env.buildLog ++ "\n"), .free .program_log]
  else if env.createKernel < 0 then
    stopAfter cfg d 13 [.printf ("Couldn't create a kernel: " ++ toString env.createKernel)]
  else if env.createInputImage < 0 then
    stopAfter cfg d 14 [.perror "Couldn't create the image object"]
  else if env.createOutputImage < 0 then
    stopAfter cfg d 15 [.perror "Couldn't create the image object"]
  else if orInt32 env.setArg0 env.setArg1 < 0 then
    stopAfter cfg d 17 [.printf "Couldn't set a kernel argument"]
  else if env.createQueue < 0 then
    stopAfter cfg d 18 [.perror "Couldn't create a command queue"]
  else if env.enqueueKernel < 0 then
    stopAfter cfg d 19 [.perror "Couldn't enqueue the kernel"]
  else if env.readImage < 0 then
    stopAfter cfg d 20 [.perror "Couldn't read from the image object"]
  else
    .exit (callsDevice d ++ callsMain cfg d) ABORT_STATUS

/-! ## Lemmas on the embedding -/

theorem bind_ok {α β : Type} (t : List Event) (a : α) (f : α → Res β) :
    (Res.ok t a >>= f) = (f a).prepend t := rfl

theorem bind_exit {α β : Type} (t : List Event) (c : Nat) (f : α → Res β) :
    (Res.exit t c >>= f) = Res.exit t c := rfl

theorem bind_ite {α β : Type} (p : Prop) [Decidable p] (x y : Res α) (f : α → Res β) :
    ((if p then x else y) >>= f) = if p then x >>= f else y >>= f := by
  split_ifs <;> rfl

theorem prepend_ite {α : Type} (p : Prop) [Decidable p] (t : List Event) (x y : Res α) :
    Res.prepend t (if p then x else y) = if p then Res.prepend t x else Res.prepend t y := by
  split_ifs <;> rfl

theorem prepend_ok {α : Type} (t t2 : List Event) (a : α) :
    Res.prepend t (Res.ok t2 a) = Res.ok (t ++ t2) a := rfl

theorem prepend_exit {α : Type} (t t2 : List Event) (c : Nat) :
    Res.prepend t (Res.exit t2 c : Res α) = Res.exit (t ++ t2) c := rfl

theorem free_program_buffer :
    free .program_buffer = .ok [.free .program_buffer] () := rfl

theorem free_program_log :
    free .program_log = .ok [.free .program_log] () := rfl

theorem free_input_pixels :
    free .input_pixels = .exit [.free .input_pixels] ABORT_STATUS := rfl

theorem pure_eq {α : Type} (a : α) : (pure a : Res α) = Res.ok [] a := rfl

theorem create_device_eq (env : Env) : create_device env =
    if env.platformIDs < 0 then
      .exit [.clGetPlatformIDs, .perror "Couldn't identify a platform"] 1
    else if env.deviceGPU = CL_DEVICE_NOT_FOUND then
      if env.deviceCPU < 0 then
        .exit [.clGetPlatformIDs, .clGetDeviceIDs .GPU, .clGetDeviceIDs .CPU,
          .perror "Couldn't access any devices"] 1
      else .ok [.clGetPlatformIDs, .clGetDeviceIDs .GPU, .clGetDeviceIDs .CPU] .CPU
    else if env.deviceGPU < 0 then
      .exit [.clGetPlatformIDs, .clGetDeviceIDs .GPU, .perror "Couldn't access any devices"] 1
    else .ok [.clGetPlatformIDs, .clGetDeviceIDs .GPU] .GPU := by
  unfold create_device
  simp only [call, exit, bind_ok, bind_exit, bind_ite, prepend_ite, prepend_ok, prepend_exit, pure_eq,
    List.cons_append, List.nil_append, List.append_nil]

/-- The run of `main` as nested conditions on the statuses. -/
theorem main_eq (cfg : Config) (env : Env) : main cfg env =
    if env.platformIDs < 0 then
      .exit [.clGetPlatformIDs, .perror "Couldn't identify a platform"] 1
    else if env.deviceGPU = CL_DEVICE_NOT_FOUND then
      if env.deviceCPU < 0 then
        .exit [.clGetPlatformIDs, .clGetDeviceIDs .GPU, .clGetDeviceIDs .CPU,
          .perror "Couldn't access any devices"] 1
      else afterDevice cfg env .CPU
    else if env.deviceGPU < 0 then
      .exit [.clGetPlatformIDs, .clGetDeviceIDs .GPU, .perror "Couldn't access any devices"] 1
    else afterDevice cfg env .GPU := by
  unfold main build_program
  rw [create_device_eq]
  simp only [call, exit, free_program_buffer, free_program_log, free_input_pixels, bind_ok, bind_exit, bind_ite, prepend_ite, prepend_ok, prepend_exit, pure_eq,
    List.cons_append, List.nil_append, List.append_nil]
  unfold afterDevice stopAfter callsMain callsDevice
  simp only [List.take_succ_cons, List.take_zero, List.cons_append, List.nil_append, List.append_nil]
  /- the two sides differ by the second test of `createOutputImage` (line 154) only -/
  by_cases h : env.createOutputImage < 0
  · simp only [if_pos h]
  · simp only [if_neg h]

/-- Where a run can stop once `create_device` has returned `d`: one case for each check
of `main`, with the checks passed before it, and one for the run that passes them all. -/
theorem afterDevice_cases (cfg : Config) (env : Env) (d : Dev) (P : Res Nat → Prop)
    (atContext :
      env.createContext < 0 →
      P (stopAfter cfg d 1 [.perror "Couldn't create a context"]))
    (atFopen :
      ¬ env.createContext < 0 → env.fopenOk = false →
      P (stopAfter cfg d 2 [.perror "Couldn't find the program file"]))
    (atProgram :
      ¬ env.createContext < 0 → ¬ env.fopenOk = false → env.createProgram < 0 →
      P (stopAfter cfg d 9 [.perror "Couldn't create the program"]))
    (atBuild :
      ¬ env.createContext < 0 → ¬ env.fopenOk = false → ¬ env.createProgram < 0 →
      env.buildProgram < 0 →
      P (stopAfter cfg d 12 [.clGetProgramBuildInfo .program d none, .malloc .program_log,
        .clGetProgramBuildInfo .program d (some .program_log),
        .printf (env.buildLog ++ "\n"), .free .program_log]))
    (atKernel :
      ¬ env.createContext < 0 → ¬ env.fopenOk = false → ¬ env.createProgram < 0 →
      ¬ env.buildProgram < 0 → env.createKernel < 0 →
      P (stopAfter cfg d 13 [.printf ("Couldn't create a kernel: " ++ toString env.createKernel)]))
    (atInput :
      ¬ env.createContext < 0 → ¬ env.fopenOk = false → ¬ env.createProgram < 0 →
      ¬ env.buildProgram < 0 → ¬ env.createKernel < 0 → env.createInputImage < 0 →
      P (stopAfter cfg d 14 [.perror "Couldn't create the image object"]))
    (atOutput :
      ¬ env.createContext < 0 → ¬ env.fopenOk = false → ¬ env.createProgram < 0 →
      ¬ env.buildProgram < 0 → ¬ env.createKernel < 0 → ¬ env.createInputImage < 0 →
      env.createOutputImage < 0 →
      P (stopAfter cfg d 15 [.perror "Couldn't create the image object"]))
    (atArgs :
      ¬ env.createContext < 0 → ¬ env.fopenOk = false → ¬ env.createProgram < 0 →
      ¬ env.buildProgram < 0 → ¬ env.createKernel < 0 → ¬ env.createInputImage < 0 →
      ¬ env.createOutputImage < 0 → orInt32 env.setArg0 env.setArg1 < 0 →
      P (stopAfter cfg d 17 [.printf "Couldn't set a kernel argument"]))
    (atQueue :
      ¬ env.createContext < 0 → ¬ env.fopenOk = false → ¬ env.createProgram < 0 →
      ¬ env.buildProgram < 0 → ¬ env.createKernel < 0 → ¬ env.createInputImage < 0 →
      ¬ env.createOutputImage < 0 → ¬ orInt32 env.setArg0 env.setArg1 < 0 →
      env.createQueue < 0 →
      P (stopAfter cfg d 18 [.perror "Couldn't create a command queue"]))
    (atEnqueue :
      ¬ env.createContext < 0 → ¬ env.fopenOk = false → ¬ env.createProgram < 0 →
      ¬ env.buildProgram < 0 → ¬ env.createKernel < 0 → ¬ env.createInputImage < 0 →
      ¬ env.createOutputImage < 0 → ¬ orInt32 env.setArg0 env.setArg1 < 0 →
      ¬ env.createQueue < 0 → env.enqueueKernel < 0 →
      P (stopAfter cfg d 19 [.perror "Couldn't enqueue the kernel"]))
    (atRead :
      ¬ env.createContext < 0 → ¬ env.fopenOk = false → ¬ env.createProgram < 0 →
      ¬ env.buildProgram < 0 → ¬ env.createKernel < 0 → ¬ env.createInputImage < 0 →
      ¬ env.createOutputImage < 0 → ¬ orInt32 env.setArg0 env.setArg1 < 0 →
      ¬ env.createQueue < 0 → ¬ env.enqueueKernel < 0 → env.readImage < 0 →
      P (stopAfter cfg d 20 [.perror "Couldn't read from the image object"]))
    (atEnd :
      ¬ env.createContext < 0 → ¬ env.fopenOk = false → ¬ env.createProgram < 0 →
      ¬ env.buildProgram < 0 → ¬ env.createKernel < 0 → ¬ env.createInputImage < 0 →
      ¬ env.createOutputImage < 0 → ¬ orInt32 env.setArg0 env.setArg1 < 0 →
      ¬ env.createQueue < 0 → ¬ env.enqueueKernel < 0 → ¬ env.readImage < 0 →
      P (.exit (callsDevice d ++ callsMain cfg d) ABORT_STATUS)) :
    P (afterDevice cfg env d) := by
  unfold afterDevice
  by_cases c1 : env.createContext < 0
  · simp only [if_pos c1]
    exact atContext c1
  simp only [if_neg c1]
  by_cases c2 : env.fopenOk = false
  · simp only [if_pos c2]
    exact atFopen c1 c2
  simp only [if_neg c2]
  by_cases c3 : env.createProgram < 0
  · simp only [if_pos c3]
    exact atProgram c1 c2 c3
  simp only [if_neg c3]
  by_cases c4 : env.buildProgram < 0
  · simp only [if_pos c4]
    exact atBuild c1 c2 c3 c4
  simp only [if_neg c4]
  by_cases c5 : env.createKernel < 0
  · simp only [if_pos c5]
    exact atKernel c1 c2 c3 c4 c5
  simp only [if_neg c5]
  by_cases c6 : env.createInputImage < 0
  · simp only [if_pos c6]
    exact atInput c1 c2 c3 c4 c5 c6
  simp only [if_neg c6]
  by_cases c7 : env.createOutputImage < 0
  · simp only [if_pos c7]
    exact atOutput c1 c2 c3 c4 c5 c6 c7
  simp only [if_neg c7]
  by_cases c8 : orInt32 env.setArg0 env.setArg1 < 0
  · simp only [if_pos c8]
    exact atArgs c1 c2 c3 c4 c5 c6 c7 c8
  simp only [if_neg c8]
  by_cases c9 : env.createQueue < 0
  · simp only [if_pos c9]
    exact atQueue c1 c2 c3 c4 c5 c6 c7 c8 c9
  simp only [if_neg c9]
  by_cases c10 : env.enqueueKernel < 0
  · simp only [if_pos c10]
    exact atEnqueue c1 c2 c3 c4 c5 c6 c7 c8 c9 c10
  simp only [if_neg c10]
  by_cases c11 : env.readImage < 0
  · simp only [if_pos c11]
    exact atRead c1 c2 c3 c4 c5 c6 c7 c8 c9 c10 c11
  simp only [if_neg c11]
  exact atEnd c1 c2 c3 c4 c5 c6 c7 c8 c9 c10 c11

/-- Where `create_device` can stop a run of `main`, and what follows when it returns. -/
theorem main_cases (cfg : Config) (env : Env) (P : Res Nat → Prop)
    (atPlatform : env.platformIDs < 0 →
      P (.exit [.clGetPlatformIDs, .perror "Couldn't identify a platform"] 1))
    (atCPU : ¬ env.platformIDs < 0 → env.deviceGPU = CL_DEVICE_NOT_FOUND →
      env.deviceCPU < 0 →
      P (.exit [.clGetPlatformIDs, .clGetDeviceIDs .GPU, .clGetDeviceIDs .CPU,
        .perror "Couldn't access any devices"] 1))
    (atGPU : ¬ env.platformIDs < 0 → ¬ env.deviceGPU = CL_DEVICE_NOT_FOUND →
      env.deviceGPU < 0 →
      P (.exit [.clGetPlatformIDs, .clGetDeviceIDs .GPU,
        .perror "Couldn't access any devices"] 1))
    (withCPU : ¬ env.platformIDs < 0 → env.deviceGPU = CL_DEVICE_NOT_FOUND →
      ¬ env.deviceCPU < 0 → P (afterDevice cfg env .CPU))
    (withGPU : ¬ env.platformIDs < 0 → ¬ env.deviceGPU = CL_DEVICE_NOT_FOUND →
      ¬ env.deviceGPU < 0 → P (afterDevice cfg env .GPU)) :
    P (main cfg env) := by
  rw [main_eq]
  by_cases c1 : env.platformIDs < 0
  · simp only [if_pos c1]
    exact atPlatform c1
  simp only [if_neg c1]
  by_cases c2 : env.deviceGPU = CL_DEVICE_NOT_FOUND
  · simp only [if_pos c2]
    by_cases c3 : env.deviceCPU < 0
    · simp only [if_pos c3]
      exact atCPU c1 c2 c3
    · simp only [if_neg c3]
      exact withCPU c1 c2 c3
  · simp only [if_neg c2]
    by_cases c3 : env.deviceGPU < 0
    · simp only [if_pos c3]
      exact atGPU c1 c2 c3
    · simp only [if_neg c3]
      exact withGPU c1 c2 c3

/-! ### 32-bit arithmetic -/

theorem toBits32_lt (x : Int) : toBits32 x < 2 ^ 32 := by
  unfold toBits32
  omega

theorem toBits32_sign (x : Int) (h : isInt32 x) : 2 ^ 31 ≤ toBits32 x ↔ x < 0 := by
  unfold toBits32
  unfold isInt32 at h
  omega

theorem ofBits32_sign (n : Nat) (h : n < 2 ^ 32) : ofBits32 n < 0 ↔ 2 ^ 31 ≤ n := by
  unfold ofBits32
  split_ifs <;> omega

theorem topBit_iff (n : Nat) (h : n < 2 ^ 32) : n.testBit 31 = true ↔ 2 ^ 31 ≤ n := by
  rw [Nat.testBit_to_div_mod]
  simp only [decide_eq_true_eq]
  omega

theorem lor_topBit (m n : Nat) (hm : m < 2 ^ 32) (hn : n < 2 ^ 32) :
    2 ^ 31 ≤ m ||| n ↔ 2 ^ 31 ≤ m ∨ 2 ^ 31 ≤ n := by
  have hmn : m ||| n < 2 ^ 32 := Nat.or_lt_two_pow hm hn
  rw [← topBit_iff _ hmn, ← topBit_iff _ hm, ← topBit_iff _ hn, Nat.testBit_or]
  simp

/-- The sign of `a | b` on 32-bit integers: negative exactly when `a` or `b` is. -/
theorem orInt32_neg_iff (a b : Int) (ha : isInt32 a) (hb : isInt32 b) :
    orInt32 a b < 0 ↔ a < 0 ∨ b < 0 := by
  unfold orInt32
  rw [ofBits32_sign _ (Nat.or_lt_two_pow (toBits32_lt a) (toBits32_lt b)),
    lor_topBit _ _ (toBits32_lt a) (toBits32_lt b), toBits32_sign a ha, toBits32_sign b hb]

/-- The result of `a | b` is again a 32-bit integer. -/
theorem orInt32_isInt32 (a b : Int) : isInt32 (orInt32 a b) := by
  have h := Nat.or_lt_two_pow (toBits32_lt a) (toBits32_lt b)
  unfold orInt32 ofBits32 isInt32
  split_ifs <;> omega

/-! ### The shape of a trace -/

theorem shape_of_asides (cfg : Config) (t : List Event)
    (h : ∀ e ∈ t, e.isAside = true) :
    ∃ d n pre msgs, t = pre ++ (callsMain cfg d).take n ++ msgs ∧
      ∀ e ∈ pre ++ msgs, e.isAside = true :=
  ⟨.GPU, 0, t, [], by simp, by simpa using h⟩

/-- Every trace is a beginning of the calls of the run that passes every check, between
device queries and the calls of a failed check. -/
theorem trace_shape (cfg : Config) (env : Env) :
    ∃ d n pre msgs, (main cfg env).trace = pre ++ (callsMain cfg d).take n ++ msgs ∧
      ∀ e ∈ pre ++ msgs, e.isAside = true := by
  have key : ∀ d, ∃ d' n pre msgs,
      (afterDevice cfg env d).trace = pre ++ (callsMain cfg d').take n ++ msgs ∧
      ∀ e ∈ pre ++ msgs, e.isAside = true := by
    intro d
    have hd : ∀ e ∈ callsDevice d, e.isAside = true := by
      cases d <;> simp [callsDevice, Event.isAside]
    refine afterDevice_cases cfg env d (fun r => ∃ d' n pre msgs,
      r.trace = pre ++ (callsMain cfg d').take n ++ msgs ∧
      ∀ e ∈ pre ++ msgs, e.isAside = true) ?_ ?_ ?_ ?_ ?_ ?_ ?_ ?_ ?_ ?_ ?_ ?atEnd
    case atEnd =>
      intros
      refine ⟨d, (callsMain cfg d).length, callsDevice d, [], ?_, ?_⟩
      · simp [Res.trace]
      · simpa using hd
    all_goals intros
    all_goals refine ⟨d, _, callsDevice d, _, rfl, ?_⟩
    all_goals exact List.forall_mem_append.mpr ⟨hd, by simp [Event.isAside]⟩
  refine main_cases cfg env (fun r => ∃ d n pre msgs,
    r.trace = pre ++ (callsMain cfg d).take n ++ msgs ∧
    ∀ e ∈ pre ++ msgs, e.isAside = true) ?_ ?_ ?_ ?_ ?_
  · intro _
    exact shape_of_asides cfg _ (by simp [Event.isAside, Res.trace])
  · intro _ _ _
    exact shape_of_asides cfg _ (by simp [Event.isAside, Res.trace])
  · intro _ _ _
    exact shape_of_asides cfg _ (by simp [Event.isAside, Res.trace])
  · intro _ _ _
    exact key .CPU
  · intro _ _ _
    exact key .GPU

/-- An observation that ignores the asides sees, on any trace, what it sees on a beginning
of the calls of the run that passes every check. -/
theorem filterMap_trace {α : Type} (f : Event → Option α)
    (hf : ∀ e, e.isAside = true → f e = none) (cfg : Config) (env : Env) :
    ∃ d n, (main cfg env).trace.filterMap f = ((callsMain cfg d).take n).filterMap f := by
  obtain ⟨d, n, pre, msgs, ht, has⟩ := trace_shape cfg env
  refine ⟨d, n, ?_⟩
  have hnone : ∀ l : List Event, (∀ e ∈ l, e.isAside = true) → l.filterMap f = [] := by
    intro l hl
    rw [List.filterMap_eq_nil_iff]
    exact fun e he => hf e (hl e he)
  rw [ht, List.filterMap_append, List.filterMap_append,
    hnone pre (fun e he => has e (List.mem_append_left _ he)),
    hnone msgs (fun e he => has e (List.mem_append_right _ he))]
  simp

/-- The same for a selection of calls. -/
theorem filter_trace (p : Event → Bool) (hp : ∀ e, e.isAside = true → p e = false)
    (cfg : Config) (env : Env) :
    ∃ d n, (main cfg env).trace.filter p = ((callsMain cfg d).take n).filter p := by
  obtain ⟨d, n, pre, msgs, ht, has⟩ := trace_shape cfg env
  refine ⟨d, n, ?_⟩
  have hnone : ∀ l : List Event, (∀ e ∈ l, e.isAside = true) → l.filter p = [] := by
    intro l hl
    rw [List.filter_eq_nil_iff]
    intro e he
    rw [hp e (hl e he)]
    exact Bool.false_ne_true
  rw [ht, List.filter_append, List.filter_append,
    hnone pre (fun e he => has e (List.mem_append_left _ he)),
    hnone msgs (fun e he => has e (List.mem_append_right _ he))]
  simp

/-- What such an observation sees on any trace is among what it sees on the run that
passes every check. -/
theorem mem_filterMap_trace {α : Type} (f : Event → Option α)
    (hf : ∀ e, e.isAside = true → f e = none) (cfg : Config) (env : Env) (a : α)
    (ha : a ∈ (main cfg env).trace.filterMap f) :
    ∃ d, a ∈ (callsMain cfg d).filterMap f := by
  obtain ⟨d, n, h⟩ := filterMap_trace f hf cfg env
  rw [h] at ha
  obtain ⟨e, he, hfe⟩ := List.mem_filterMap.mp ha
  exact ⟨d, List.mem_filterMap.mpr ⟨e, List.mem_of_mem_take he, hfe⟩⟩

/-- A run on which no check calls `exit(1)` issued all the calls of `callsMain` and was
ended by the `free` of line 194. -/
theorem main_passes (cfg : Config) (env : Env) (h : exitCode (main cfg env) ≠ 1) :
    ∃ d, main cfg env = .exit (callsDevice d ++ callsMain cfg d) ABORT_STATUS := by
  have key : ∀ d, exitCode (afterDevice cfg env d) ≠ 1 →
      ∃ d', afterDevice cfg env d = .exit (callsDevice d' ++ callsMain cfg d') ABORT_STATUS := by
    intro d
    refine afterDevice_cases cfg env d (fun r => exitCode r ≠ 1 →
      ∃ d', r = .exit (callsDevice d' ++ callsMain cfg d') ABORT_STATUS)
      ?_ ?_ ?_ ?_ ?_ ?_ ?_ ?_ ?_ ?_ ?_ ?atEnd
    case atEnd =>
      intros
      exact fun _ => ⟨d, rfl⟩
    all_goals intros
    all_goals beta_reduce
    all_goals intro hcode
    all_goals exact absurd hcode (by simp [exitCode, stopAfter])
  revert h
  refine main_cases cfg env (fun r => exitCode r ≠ 1 →
    ∃ d, r = .exit (callsDevice d ++ callsMain cfg d) ABORT_STATUS) ?_ ?_ ?_ ?_ ?_
  · intro _ h
    exact absurd h (by simp [exitCode])
  · intro _ _ _ h
    exact absurd h (by simp [exitCode])
  · intro _ _ _ h
    exact absurd h (by simp [exitCode])
  · intro _ _ _
    exact key .CPU
  · intro _ _ _
    exact key .GPU

/-! ## Exit codes -/

theorem exists_mem_stopAfter (cfg : Config) (d : Dev) (n : Nat) (msgs : List Event)
    (p : Event → Prop) (h : ∃ e ∈ (callsMain cfg d).take n, p e) :
    ∃ e ∈ (stopAfter cfg d n msgs).trace, p e := by
  obtain ⟨e, he, hp⟩ := h
  exact ⟨e, List.mem_append_left _ (List.mem_append_right _ he), hp⟩

/-- Once `create_device` has returned: a check fails and the process exits with 1, or no
check fails and `free` ends the process at line 194. -/
theorem afterDevice_outcome (cfg : Config) (env : Env) (hw : env.wellTyped) (d : Dev)
    (hd : ∀ e ∈ callsDevice d, env.checkFailed e = false) :
    (exitCode (afterDevice cfg env d) = 1 ∧
      ∃ e ∈ (afterDevice cfg env d).trace, env.checkFailed e = true) ∨
    (exitCode (afterDevice cfg env d) = ABORT_STATUS ∧
      ∀ e ∈ (afterDevice cfg env d).trace, env.checkFailed e = false) := by
  have hor := orInt32_neg_iff env.setArg0 env.setArg1 hw.2.2.2.2.2.2.2.2.2.1
    hw.2.2.2.2.2.2.2.2.2.2.1
  refine afterDevice_cases cfg env d (fun r =>
    (exitCode r = 1 ∧ ∃ e ∈ r.trace, env.checkFailed e = true) ∨
    (exitCode r = ABORT_STATUS ∧ ∀ e ∈ r.trace, env.checkFailed e = false))
    ?_ ?_ ?_ ?_ ?_ ?_ ?_ ?_ ?_ ?_ ?_ ?_
  all_goals intros
  all_goals simp only [hor] at *
  all_goals first
    | (left
       refine ⟨rfl, ?_⟩
       apply exists_mem_stopAfter
       simp [callsMain, Env.checkFailed, Env.callFailed, *])
    | (right
       simp only [exitCode, Res.trace, List.mem_append, true_and]
       rintro e (he | he)
       · exact hd e he
       · revert e
         simp [callsMain, Env.checkFailed, Env.callFailed, *]
         try omega)

/-- The two ways a run ends: a check fails and the process exits with 1, or no check
fails and `free` ends the process at line 194. -/
theorem main_outcome (cfg : Config) (env : Env) (hw : env.wellTyped) :
    (exitCode (main cfg env) = 1 ∧ ∃ e ∈ (main cfg env).trace, env.checkFailed e = true) ∨
    (exitCode (main cfg env) = ABORT_STATUS ∧ ∀ e ∈ (main cfg env).trace, env.checkFailed e = false) := by
  refine main_cases cfg env (fun r =>
    (exitCode r = 1 ∧ ∃ e ∈ r.trace, env.checkFailed e = true) ∨
    (exitCode r = ABORT_STATUS ∧ ∀ e ∈ r.trace, env.checkFailed e = false)) ?_ ?_ ?_ ?_ ?_
  · intro c1
    left
    simp [exitCode, Res.trace, Env.checkFailed, Env.callFailed, c1]
  · intro c1 c2 c3
    left
    simp [exitCode, Res.trace, Env.checkFailed, Env.callFailed, c3]
  · intro c1 c2 c3
    left
    simp [exitCode, Res.trace, Env.checkFailed, Env.callFailed, c2, c3]
  · intro c1 c2 c3
    apply afterDevice_outcome cfg env hw
    simp [callsDevice, Env.checkFailed, Env.callFailed, c1, c2, c3]
  · intro c1 c2 c3
    apply afterDevice_outcome cfg env hw
    simp [callsDevice, Env.checkFailed, Env.callFailed, c1, c2, c3]

/-- On every run with 32-bit statuses: the process exits with 1 exactly when a check
fails (a negative status or a `NULL` file, the GPU query answering `CL_DEVICE_NOT_FOUND`
being passed on to the CPU query), it ends with `ABORT_STATUS` exactly when none does,
and it never ends with 0.  The combined test of the two `clSetKernelArg` statuses fires
exactly when one of the two is negative. -/
theorem exit_code_one_iff (cfg : Config) (env : Env) (hw : env.wellTyped) :
    (exitCode (main cfg env) = 1 ↔
      ∃ e ∈ (main cfg env).trace, env.checkFailed e = true) ∧
    (exitCode (main cfg env) = ABORT_STATUS ↔
      ∀ e ∈ (main cfg env).trace, env.checkFailed e = false) ∧
    exitCode (main cfg env) ≠ 0 ∧
    (orInt32 env.setArg0 env.setArg1 < 0 ↔ env.setArg0 < 0 ∨ env.setArg1 < 0) := by
  have hA : ABORT_STATUS = 134 := rfl
  refine ⟨?_, ?_, ?_, orInt32_neg_iff _ _ hw.2.2.2.2.2.2.2.2.2.1 hw.2.2.2.2.2.2.2.2.2.2.1⟩
  · rcases main_outcome cfg env hw with ⟨h1, hex⟩ | ⟨h0, hall⟩
    · exact ⟨fun _ => hex, fun _ => h1⟩
    · constructor
      · intro h; omega
      · rintro ⟨e, he, hf⟩
        rw [hall e he] at hf
        exact absurd hf (by decide)
  · rcases main_outcome cfg env hw with ⟨h1, e, he, hf⟩ | ⟨h0, hall⟩
    · constructor
      · intro h; omega
      · intro hall
        rw [hall e he] at hf
        exact absurd hf (by decide)
    · exact ⟨fun _ => hall, fun _ => h0⟩
  · rcases main_outcome cfg env hw with ⟨h1, _⟩ | ⟨h0, _⟩
    · omega
    · omega

/-- C1 (the code on the run on which every call succeeds). With the values of the
program and every status `CL_SUCCESS`, no checked call of the run fails and no check calls
`exit`, and yet the process does not end with 0: the last call of the run is
`free(input_pixels)` of line 194, on an array that `malloc` did not return, and the process
ends there with the status of `abort`, which is neither 0 nor 1. -/
theorem all_pass_run_aborts :
    envOk.wellTyped ∧
    (∀ e ∈ (main Config.program envOk).trace, envOk.callFailed e = false) ∧
    (main Config.program envOk).trace.getLast? = some (.free .input_pixels) ∧
    HostBuf.input_pixels.fromMalloc = false ∧
    exitCode (main Config.program envOk) = 134 ∧
    exitCode (main Config.program envOk) ≠ 0 ∧
    exitCode (main Config.program envOk) ≠ 1 := by
  decide

/-! ## Image sizes -/

theorem mulSize_eq (a b : Nat) (h : a * b < 2 ^ SIZE_BITS) : mulSize a b = a * b :=
  Nat.mod_eq_of_lt h

/-- In `size_t` arithmetic, on every run: each creation of the output image is given
`SCALE_FACTOR * width` by `SCALE_FACTOR * height`, each read-back of it starts at
`(0,0,0)` and covers the same width and height with depth 1; a run that no check stops has
exactly one of each. -/
theorem output_image_dims_wrapped (cfg : Config) (env : Env) :
    (∀ p ∈ outputImageDims (main cfg env).trace,
      p = (mulSize cfg.SCALE_FACTOR cfg.width, mulSize cfg.SCALE_FACTOR cfg.height)) ∧
    (∀ p ∈ readRegions (main cfg env).trace,
      p = ([0, 0, 0],
        [mulSize cfg.SCALE_FACTOR cfg.width, mulSize cfg.SCALE_FACTOR cfg.height, 1])) ∧
    (exitCode (main cfg env) ≠ 1 →
      outputImageDims (main cfg env).trace =
        [(mulSize cfg.SCALE_FACTOR cfg.width, mulSize cfg.SCALE_FACTOR cfg.height)] ∧
      readRegions (main cfg env).trace =
        [([0, 0, 0],
          [mulSize cfg.SCALE_FACTOR cfg.width, mulSize cfg.SCALE_FACTOR cfg.height, 1])]) := by
  refine ⟨?_, ?_, ?_⟩
  · intro p hp
    unfold outputImageDims at hp
    obtain ⟨d, hd⟩ := mem_filterMap_trace _ (by
      intro e he
      cases e <;> first | rfl | simp [Event.isAside] at he) cfg env p hp
    simpa [callsMain] using hd
  · intro p hp
    unfold readRegions at hp
    obtain ⟨d, hd⟩ := mem_filterMap_trace _ (by
      intro e he
      cases e <;> first | rfl | simp [Event.isAside] at he) cfg env p hp
    simpa [callsMain] using hd
  · intro h
    obtain ⟨d, hd⟩ := main_passes cfg env h
    rw [hd]
    cases d <;> simp [Res.trace, outputImageDims, readRegions, callsDevice, callsMain]

/-- C2 (amended). For every scale factor, width and height whose products
`scale * width` and `scale * height` fit in `size_t` (as they do for the width and height
4 of the program and every 32-bit scale factor): each creation of the output image is
given width exactly `scale * width` and height exactly `scale * height`, each read-back
of it has origin `(0,0,0)` and a region of exactly those two dimensions and depth 1, and
a run that no check stops has exactly one such creation and one such read-back. -/
theorem output_image_dims (cfg : Config) (env : Env)
    (hw : cfg.SCALE_FACTOR * cfg.width < 2 ^ SIZE_BITS)
    (hh : cfg.SCALE_FACTOR * cfg.height < 2 ^ SIZE_BITS) :
    (∀ p ∈ outputImageDims (main cfg env).trace,
      p = (cfg.SCALE_FACTOR * cfg.width, cfg.SCALE_FACTOR * cfg.height)) ∧
    (∀ p ∈ readRegions (main cfg env).trace,
      p = ([0, 0, 0], [cfg.SCALE_FACTOR * cfg.width, cfg.SCALE_FACTOR * cfg.height, 1])) ∧
    (exitCode (main cfg env) ≠ 1 →
      outputImageDims (main cfg env).trace =
        [(cfg.SCALE_FACTOR * cfg.width, cfg.SCALE_FACTOR * cfg.height)] ∧
      readRegions (main cfg env).trace =
        [([0, 0, 0], [cfg.SCALE_FACTOR * cfg.width, cfg.SCALE_FACTOR * cfg.height, 1])]) := by
  have h := output_image_dims_wrapped cfg env
  rw [mulSize_eq _ _ hw, mulSize_eq _ _ hh] at h
  exact h

/-- Witness for C2: with the values of the program (scale 4, width 4, height 4) the
output image is created 16 by 16 and the region read back is 16 by 16 by 1 from the
origin. -/
theorem output_image_dims_witness :
    Config.program.SCALE_FACTOR * Config.program.width < 2 ^ SIZE_BITS ∧
    Config.program.SCALE_FACTOR * Config.program.height < 2 ^ SIZE_BITS ∧
    outputImageDims (main Config.program envOk).trace = [(16, 16)] ∧
    readRegions (main Config.program envOk).trace = [([0, 0, 0], [16, 16, 1])] :=
  ⟨by decide, by decide,
    (output_image_dims Config.program envOk (by decide) (by decide)).2.2 (by decide)⟩

/-- Counterexample to C2 as stated: for scale 2 and width `2 ^ 63` the product
`SCALE_FACTOR * width` wraps in `size_t`, and the output image is created with width 0,
not `2 * 2 ^ 63`. -/
theorem output_image_dims_counterexample :
    exitCode (main cfgWide envOk) ≠ 1 ∧
    outputImageDims (main cfgWide envOk).trace = [(0, 8)] ∧
    cfgWide.SCALE_FACTOR * cfgWide.width = 18446744073709551616 := by
  decide

/-! ## Failures while building the program -/

theorem create_device_cpu (env : Env) (c1 : ¬ env.platformIDs < 0)
    (c2 : env.deviceGPU = CL_DEVICE_NOT_FOUND) (c3 : ¬ env.deviceCPU < 0) :
    create_device env = .ok (callsDevice .CPU) .CPU := by
  rw [create_device_eq, if_neg c1, if_pos c2, if_neg c3]
  rfl

theorem create_device_gpu (env : Env) (c1 : ¬ env.platformIDs < 0)
    (c2 : ¬ env.deviceGPU = CL_DEVICE_NOT_FOUND) (c3 : ¬ env.deviceGPU < 0) :
    create_device env = .ok (callsDevice .GPU) .GPU := by
  rw [create_device_eq, if_neg c1, if_neg c2, if_neg c3]
  rfl

/-- Case analysis on a run of `main`: either `create_device` exits, having issued only
platform and device queries and a message, or it returns a device `d`. -/
theorem main_after_device (cfg : Config) (env : Env) (P : Res Nat → Prop)
    (atDevice : ∀ t, (∀ e ∈ t, e.isAside = true) → P (.exit t 1))
    (withDevice : ∀ d, create_device env = .ok (callsDevice d) d →
      P (afterDevice cfg env d)) :
    P (main cfg env) := by
  refine main_cases cfg env P ?_ ?_ ?_ ?_ ?_
  · intro _
    exact atDevice _ (by simp [Event.isAside])
  · intro _ _ _
    exact atDevice _ (by simp [Event.isAside])
  · intro _ _ _
    exact atDevice _ (by simp [Event.isAside])
  · intro c1 c2 c3
    exact withDevice _ (create_device_cpu env c1 c2 c3)
  · intro c1 c2 c3
    exact withDevice _ (create_device_gpu env c1 c2 c3)

theorem not_mem_asides (t : List Event) (h : ∀ e ∈ t, e.isAside = true) (e : Event)
    (he : e.isAside = false) : e ∉ t := by
  intro hmem
  rw [h e hmem] at he
  exact absurd he (by decide)

/-- C3 (amended). On every run in which opening the kernel source file is reached and
fails (`fopen` returns `NULL`), the process prints the "Couldn't find the program file"
message and exits with code 1; up to that point it has issued the platform query, the
device query or queries of `create_device` and the creation of the context, and no other
call: no program, kernel, image or queue is created and nothing is dispatched or read. -/
theorem fopen_failure (cfg : Config) (env : Env)
    (hreach : Event.fopen PROGRAM_FILE "r" ∈ (main cfg env).trace)
    (hnull : env.fopenOk = false) :
    ∃ d, create_device env = .ok (callsDevice d) d ∧
      main cfg env = .exit (callsDevice d ++ [.clCreateContext d, .fopen PROGRAM_FILE "r",
        .perror "Couldn't find the program file"]) 1 := by
  revert hreach
  refine main_after_device cfg env (fun r => Event.fopen PROGRAM_FILE "r" ∈ r.trace →
    ∃ d, create_device env = .ok (callsDevice d) d ∧
      r = .exit (callsDevice d ++ [.clCreateContext d, .fopen PROGRAM_FILE "r",
        .perror "Couldn't find the program file"]) 1) ?_ ?_
  · intro t ht hmem
    exact absurd hmem (not_mem_asides t ht _ rfl)
  · intro d hd
    have hdev : Event.fopen PROGRAM_FILE "r" ∉ callsDevice d :=
      not_mem_asides _ (by cases d <;> simp [callsDevice, Event.isAside]) _ rfl
    refine afterDevice_cases cfg env d (fun r => Event.fopen PROGRAM_FILE "r" ∈ r.trace →
      ∃ d, create_device env = .ok (callsDevice d) d ∧
        r = .exit (callsDevice d ++ [.clCreateContext d, .fopen PROGRAM_FILE "r",
          .perror "Couldn't find the program file"]) 1) ?_ ?_ ?_ ?_ ?_ ?_ ?_ ?_ ?_ ?_ ?_ ?_
    · intro _ hmem
      simp [Res.trace, stopAfter, callsMain, hdev] at hmem
    · intro _ _ _
      exact ⟨d, hd, by simp [stopAfter, callsMain]⟩
    all_goals intro _ hopen
    all_goals exact absurd hnull hopen

/-- Witness for C3: the run on which only `fopen` fails. -/
theorem fopen_failure_witness :
    Event.fopen PROGRAM_FILE "r" ∈ (main Config.program envNoFile).trace ∧
    envNoFile.fopenOk = false ∧
    ∃ d, create_device envNoFile = .ok (callsDevice d) d ∧
      main Config.program envNoFile = .exit (callsDevice d ++ [.clCreateContext d,
        .fopen PROGRAM_FILE "r", .perror "Couldn't find the program file"]) 1 :=
  ⟨by decide, by decide, fopen_failure Config.program envNoFile (by decide) (by decide)⟩

/-- Counterexample to C3 as stated: on the run on which only `fopen` fails, three OpenCL
calls (platform query, device query, context creation) precede the failure. -/
theorem fopen_failure_counterexample :
    envNoFile.fopenOk = false ∧
    main Config.program envNoFile = .exit [.clGetPlatformIDs, .clGetDeviceIDs .GPU,
      .clCreateContext .GPU, .fopen "interp.cl" "r",
      .perror "Couldn't find the program file"] 1 ∧
    (main Config.program envNoFile).trace.filter Event.isOpenCL =
      [.clGetPlatformIDs, .clGetDeviceIDs .GPU, .clCreateContext .GPU] := by
  decide

/-- C4. On every run in which `clBuildProgram` is reached and returns a negative status,
the process queries the build log of the program for the device `create_device` selected
(its size, then its text), prints that text followed by a newline on standard output,
and then exits with code 1; the trace ends with these calls, and the run creates no
kernel, image or command queue and dispatches nothing. -/
theorem build_failure (cfg : Config) (env : Env)
    (hreach : ∃ p o, Event.clBuildProgram p o ∈ (main cfg env).trace)
    (hneg : env.buildProgram < 0) :
    ∃ d pre, create_device env = .ok (callsDevice d) d ∧
      main cfg env = .exit (pre ++
        [.clBuildProgram .program ("-DSCALE=" ++ formatU cfg.SCALE_FACTOR),
         .clGetProgramBuildInfo .program d none, .malloc .program_log,
         .clGetProgramBuildInfo .program d (some .program_log),
         .printf (env.buildLog ++ "\n"), .free .program_log]) 1 ∧
      ∀ e ∈ (main cfg env).trace, e.isLaterWork = false := by
  revert hreach
  refine main_after_device cfg env (fun r => (∃ p o, Event.clBuildProgram p o ∈ r.trace) →
    ∃ d pre, create_device env = .ok (callsDevice d) d ∧
      r = .exit (pre ++
        [.clBuildProgram .program ("-DSCALE=" ++ formatU cfg.SCALE_FACTOR),
         .clGetProgramBuildInfo .program d none, .malloc .program_log,
         .clGetProgramBuildInfo .program d (some .program_log),
         .printf (env.buildLog ++ "\n"), .free .program_log]) 1 ∧
      ∀ e ∈ r.trace, e.isLaterWork = false) ?_ ?_
  · rintro t ht ⟨p, o, hmem⟩
    exact absurd hmem (not_mem_asides t ht _ rfl)
  · intro d hd
    have hdev : ∀ p o, Event.clBuildProgram p o ∉ callsDevice d := fun p o =>
      not_mem_asides _ (by cases d <;> simp [callsDevice, Event.isAside]) _ rfl
    have hwork : ∀ e ∈ callsDevice d, e.isLaterWork = false := by
      cases d <;> simp [callsDevice, Event.isLaterWork]
    refine afterDevice_cases cfg env d (fun r =>
      (∃ p o, Event.clBuildProgram p o ∈ r.trace) →
      ∃ d pre, create_device env = .ok (callsDevice d) d ∧
        r = .exit (pre ++
          [.clBuildProgram .program ("-DSCALE=" ++ formatU cfg.SCALE_FACTOR),
           .clGetProgramBuildInfo .program d none, .malloc .program_log,
           .clGetProgramBuildInfo .program d (some .program_log),
           .printf (env.buildLog ++ "\n"), .free .program_log]) 1 ∧
        ∀ e ∈ r.trace, e.isLaterWork = false) ?_ ?_ ?_ ?_ ?_ ?_ ?_ ?_ ?_ ?_ ?_ ?_
    · rintro _ ⟨p, o, hmem⟩
      simp [Res.trace, stopAfter, callsMain, hdev] at hmem
    · rintro _ _ ⟨p, o, hmem⟩
      simp [Res.trace, stopAfter, callsMain, hdev] at hmem
    · rintro _ _ _ ⟨p, o, hmem⟩
      simp [Res.trace, stopAfter, callsMain, hdev] at hmem
    · intro _ _ _ _ _
      refine ⟨d, callsDevice d ++ (callsMain cfg d).take 11, hd, ?_, ?_⟩
      · simp [stopAfter, callsMain]
      · simp only [Res.trace, stopAfter, List.mem_append]
        rintro e ((he | he) | he)
        · exact hwork e he
        · revert e
          simp [callsMain, Event.isLaterWork]
        · revert e
          simp [Event.isLaterWork]
    all_goals intro _ _ _ hbuild
    all_goals exact absurd hneg hbuild

/-- Witness for C4: the run on which only the build fails. -/
theorem build_failure_witness :
    (∃ p o, Event.clBuildProgram p o ∈ (main Config.program envBuildFails).trace) ∧
    envBuildFails.buildProgram < 0 ∧
    main Config.program envBuildFails = .exit [.clGetPlatformIDs, .clGetDeviceIDs .GPU,
      .clCreateContext .GPU, .fopen "interp.cl" "r", .fseek, .ftell, .rewind,
      .malloc .program_buffer, .fread .program_buffer, .fclose,
      .clCreateProgramWithSource .context .program_buffer,
      .free .program_buffer, .sprintf "-DSCALE=4", .clBuildProgram .program "-DSCALE=4",
      .clGetProgramBuildInfo .program .GPU none, .malloc .program_log,
      .clGetProgramBuildInfo .program .GPU (some .program_log),
      .printf "interp.cl: error\n", .free .program_log] 1 ∧
    ∀ e ∈ (main Config.program envBuildFails).trace, e.isLaterWork = false :=
  have hreach : ∃ p o, Event.clBuildProgram p o ∈ (main Config.program envBuildFails).trace :=
    ⟨.program, "-DSCALE=4", by decide⟩
  have h := build_failure Config.program envBuildFails hreach (by decide)
  ⟨hreach, by decide, by decide, h.choose_spec.choose_spec.2.2⟩

/-! ## Device selection -/

/-- C5. `create_device` prefers the GPU and falls back to the CPU.  After a successful
platform query: the CPU query is issued exactly when the GPU query answered
`CL_DEVICE_NOT_FOUND`; the GPU device is returned exactly when the GPU status is not
negative; the CPU device is returned exactly when the GPU query answered
`CL_DEVICE_NOT_FOUND` and the CPU status is not negative; in every other case the process
exits with code 1; and the outcome is a function of the two statuses alone. -/
theorem create_device_prefers_gpu (env env' : Env) (hplat : ¬ env.platformIDs < 0) :
    (Event.clGetDeviceIDs .CPU ∈ (create_device env).trace ↔
      env.deviceGPU = CL_DEVICE_NOT_FOUND) ∧
    ((∃ t, create_device env = .ok t .GPU) ↔ ¬ env.deviceGPU < 0) ∧
    ((∃ t, create_device env = .ok t .CPU) ↔
      env.deviceGPU = CL_DEVICE_NOT_FOUND ∧ ¬ env.deviceCPU < 0) ∧
    (env.deviceGPU < 0 → ¬ (env.deviceGPU = CL_DEVICE_NOT_FOUND ∧ ¬ env.deviceCPU < 0) →
      ∃ t, create_device env = .exit t 1) ∧
    (¬ env'.platformIDs < 0 → env'.deviceGPU = env.deviceGPU →
      env'.deviceCPU = env.deviceCPU → create_device env' = create_device env) := by
  have hnf : CL_DEVICE_NOT_FOUND < 0 := by decide
  refine ⟨?_, ?_, ?_, ?_, ?_⟩
  · rw [create_device_eq, if_neg hplat]
    by_cases hg : env.deviceGPU = CL_DEVICE_NOT_FOUND
    · rw [if_pos hg]
      by_cases hc : env.deviceCPU < 0
      · rw [if_pos hc]; simp [Res.trace, hg]
      · rw [if_neg hc]; simp [Res.trace, hg]
    · rw [if_neg hg]
      by_cases hc : env.deviceGPU < 0
      · rw [if_pos hc]; simp [Res.trace, hg]
      · rw [if_neg hc]; simp [Res.trace, hg]
  · rw [create_device_eq, if_neg hplat]
    by_cases hg : env.deviceGPU = CL_DEVICE_NOT_FOUND
    · rw [if_pos hg]
      have hneg : env.deviceGPU < 0 := by rw [hg]; exact hnf
      by_cases hc : env.deviceCPU < 0
      · rw [if_pos hc]; simp [hneg]
      · rw [if_neg hc]; simp [hneg]
    · rw [if_neg hg]
      by_cases hc : env.deviceGPU < 0
      · rw [if_pos hc]; simp [hc]
      · rw [if_neg hc]; simp [hc]
  · rw [create_device_eq, if_neg hplat]
    by_cases hg : env.deviceGPU = CL_DEVICE_NOT_FOUND
    · rw [if_pos hg]
      by_cases hc : env.deviceCPU < 0
      · rw [if_pos hc]; simp [hc]
      · rw [if_neg hc]; simp [hc, hg]
    · rw [if_neg hg]
      by_cases hc : env.deviceGPU < 0
      · rw [if_pos hc]; simp [hg]
      · rw [if_neg hc]; simp [hg]
  · intro hneg hnot
    rw [create_device_eq, if_neg hplat]
    by_cases hg : env.deviceGPU = CL_DEVICE_NOT_FOUND
    · rw [if_pos hg]
      by_cases hc : env.deviceCPU < 0
      · rw [if_pos hc]; exact ⟨_, rfl⟩
      · exact absurd ⟨hg, hc⟩ hnot
    · rw [if_neg hg, if_pos hneg]; exact ⟨_, rfl⟩
  · intro hplat' hg hc
    rw [create_device_eq, create_device_eq, if_neg hplat, if_neg hplat', hg, hc]

/-- Witness for C5: with no GPU and a working CPU the CPU device is returned. -/
theorem create_device_prefers_gpu_witness :
    ¬ envNoGpu.platformIDs < 0 ∧ ∃ t, create_device envNoGpu = .ok t .CPU :=
  ⟨by decide,
    (create_device_prefers_gpu envNoGpu envOk (by decide)).2.2.1.mpr ⟨by decide, by decide⟩⟩

/-! ## Dispatch and read-back -/

/-- When every check before the dispatch passes, the run goes on from the dispatch. -/
theorem main_of_passesSetup (cfg : Config) (env : Env) (hp : env.passesSetup) :
    ∃ d, main cfg env =
      if env.enqueueKernel < 0 then
        stopAfter cfg d 19 [.perror "Couldn't enqueue the kernel"]
      else if env.readImage < 0 then
        stopAfter cfg d 20 [.perror "Couldn't read from the image object"]
      else .exit (callsDevice d ++ callsMain cfg d) ABORT_STATUS := by
  obtain ⟨p1, p2, p3, p4, p5, p6, p7, p8, p9, p10, p11, p12⟩ := hp
  have key : ∀ d, ∃ d', afterDevice cfg env d =
      if env.enqueueKernel < 0 then
        stopAfter cfg d' 19 [.perror "Couldn't enqueue the kernel"]
      else if env.readImage < 0 then
        stopAfter cfg d' 20 [.perror "Couldn't read from the image object"]
      else .exit (callsDevice d' ++ callsMain cfg d') ABORT_STATUS := by
    intro d
    refine ⟨d, ?_⟩
    have p5' : ¬ env.fopenOk = false := by simp [p5]
    unfold afterDevice
    rw [if_neg p4, if_neg p5', if_neg p6, if_neg p7, if_neg p8, if_neg p9, if_neg p10,
      if_neg p11, if_neg p12]
  refine main_cases cfg env (fun r => ∃ d, r =
      if env.enqueueKernel < 0 then
        stopAfter cfg d 19 [.perror "Couldn't enqueue the kernel"]
      else if env.readImage < 0 then
        stopAfter cfg d 20 [.perror "Couldn't read from the image object"]
      else .exit (callsDevice d ++ callsMain cfg d) ABORT_STATUS) ?_ ?_ ?_ ?_ ?_
  · intro c1
    exact absurd c1 p1
  · intro _ c2 c3
    exact absurd c3 (p2 c2)
  · intro _ c2 c3
    exact absurd c3 (p3 c2)
  · intro _ _ _
    exact key .CPU
  · intro _ _ _
    exact key .GPU

theorem prefix_pair {α : Type} (l : List α) (a b : α) (h : l <+: [a, b]) :
    l = [] ∨ l = [a] ∨ l = [a, b] := by
  rcases l with _ | ⟨x, _ | ⟨y, _ | ⟨z, l⟩⟩⟩
  · exact Or.inl rfl
  · obtain ⟨s, hs⟩ := h
    simp only [List.cons_append, List.nil_append, List.cons.injEq] at hs
    exact Or.inr (Or.inl (by rw [hs.1]))
  · obtain ⟨s, hs⟩ := h
    simp only [List.cons_append, List.nil_append, List.cons.injEq] at hs
    exact Or.inr (Or.inr (by rw [hs.1, hs.2.1]))
  · obtain ⟨s, hs⟩ := h
    simp at hs

/-- C6. Every run that passes all checks before the dispatch issues exactly one dispatch,
in 2 dimensions with global work size `(width, height)`; when the dispatch itself returns
a status that is not negative, the run then issues exactly one read-back of the output
image, with the blocking flag set.  On any run whatever, the dispatches and read-backs
are none, or the one dispatch, or the one dispatch followed by the one read-back: never
two of either, never a read-back before the dispatch. -/
theorem one_dispatch_then_one_read (cfg : Config) (env : Env) :
    (env.passesSetup →
      (main cfg env).trace.filter Event.isDispatch =
        [.clEnqueueNDRangeKernel .queue .kernel 2 [cfg.width, cfg.height]]) ∧
    (env.passesSetup → ¬ env.enqueueKernel < 0 →
      (main cfg env).trace.filter (fun e => e.isDispatch || e.isRead) =
        [.clEnqueueNDRangeKernel .queue .kernel 2 [cfg.width, cfg.height],
         .clEnqueueReadImage .queue .output_image true [0, 0, 0]
           [mulSize cfg.SCALE_FACTOR cfg.width, mulSize cfg.SCALE_FACTOR cfg.height, 1] 0 0
           .output_pixels]) ∧
    ((main cfg env).trace.filter (fun e => e.isDispatch || e.isRead) = [] ∨
     (main cfg env).trace.filter (fun e => e.isDispatch || e.isRead) =
        [.clEnqueueNDRangeKernel .queue .kernel 2 [cfg.width, cfg.height]] ∨
     (main cfg env).trace.filter (fun e => e.isDispatch || e.isRead) =
        [.clEnqueueNDRangeKernel .queue .kernel 2 [cfg.width, cfg.height],
         .clEnqueueReadImage .queue .output_image true [0, 0, 0]
           [mulSize cfg.SCALE_FACTOR cfg.width, mulSize cfg.SCALE_FACTOR cfg.height, 1] 0 0
           .output_pixels]) := by
  refine ⟨?_, ?_, ?_⟩
  · intro hp
    obtain ⟨d, hd⟩ := main_of_passesSetup cfg env hp
    rw [hd]
    by_cases h1 : env.enqueueKernel < 0
    · rw [if_pos h1]
      cases d <;> simp [Res.trace, stopAfter, callsDevice, callsMain, Event.isDispatch]
    · rw [if_neg h1]
      by_cases h2 : env.readImage < 0
      · rw [if_pos h2]
        cases d <;> simp [Res.trace, stopAfter, callsDevice, callsMain, Event.isDispatch]
      · rw [if_neg h2]
        cases d <;> simp [Res.trace, callsDevice, callsMain, Event.isDispatch]
  · intro hp h1
    obtain ⟨d, hd⟩ := main_of_passesSetup cfg env hp
    rw [hd, if_neg h1]
    by_cases h2 : env.readImage < 0
    · rw [if_pos h2]
      cases d <;>
        simp [Res.trace, stopAfter, callsDevice, callsMain, Event.isDispatch, Event.isRead]
    · rw [if_neg h2]
      cases d <;> simp [Res.trace, callsDevice, callsMain, Event.isDispatch, Event.isRead]
  · obtain ⟨d, n, hn⟩ := filter_trace (fun e => e.isDispatch || e.isRead) (by
      intro e he
      cases e <;> first | rfl | simp [Event.isAside] at he) cfg env
    rw [hn]
    apply prefix_pair
    have hpre := List.IsPrefix.filter (fun e : Event => e.isDispatch || e.isRead)
      (List.take_prefix n (callsMain cfg d))
    simpa [callsMain, Event.isDispatch, Event.isRead] using hpre

/-- Witness for C6: the run on which every call succeeds, and the run on which the
dispatch is refused, which issues the dispatch and no read-back. -/
theorem one_dispatch_then_one_read_witness :
    envOk.passesSetup ∧ ¬ envOk.enqueueKernel < 0 ∧
    (main Config.program envOk).trace.filter (fun e => e.isDispatch || e.isRead) =
      [.clEnqueueNDRangeKernel .queue .kernel 2 [4, 4],
       .clEnqueueReadImage .queue .output_image true [0, 0, 0] [16, 16, 1] 0 0
         .output_pixels] ∧
    envNoDispatch.passesSetup ∧
    (main Config.program envNoDispatch).trace.filter Event.isDispatch =
      [.clEnqueueNDRangeKernel .queue .kernel 2 [4, 4]] :=
  have h1 : envOk.passesSetup := by unfold Env.passesSetup; decide
  have h2 : envNoDispatch.passesSetup := by unfold Env.passesSetup; decide
  ⟨h1, by decide, (one_dispatch_then_one_read Config.program envOk).2.1 h1 (by decide),
    h2, (one_dispatch_then_one_read Config.program envNoDispatch).1 h2⟩

/-! ## Teardown -/

/-- No run issues a release call: every trace ends at or before the `free` of line 194. -/
theorem no_release (cfg : Config) (env : Env) : releases (main cfg env).trace = [] := by
  obtain ⟨d, n, h⟩ := filterMap_trace Event.releases (by
    intro e he
    cases e <;> first | rfl | simp [Event.isAside] at he) cfg env
  unfold releases
  rw [h, List.filterMap_eq_nil_iff]
  have hall : ∀ e ∈ callsMain cfg d, e.releases = none := by
    simp [callsMain, Event.releases]
  exact fun e he => hall e (List.mem_of_mem_take he)

/-- The handles created and released, and their dependencies, on a run that no check
stops. -/
theorem handles_of_passes (cfg : Config) (env : Env) (h : exitCode (main cfg env) ≠ 1) :
    creations (main cfg env).trace =
      [.context, .program, .kernel, .input_image, .output_image, .queue] ∧
    releases (main cfg env).trace = [] ∧
    dependencies (main cfg env).trace =
      [(.program, .context), (.kernel, .program), (.input_image, .context),
       (.output_image, .context), (.queue, .context)] := by
  obtain ⟨d, hd⟩ := main_passes cfg env h
  rw [hd]
  cases d <;>
    simp [Res.trace, creations, releases, dependencies, callsDevice, callsMain,
      Event.creates, Event.releases, Event.dependsOn]

/-- C8 (the code on the run on which every call succeeds). With the values of the
program and every status `CL_SUCCESS`, each of the six handles is created exactly once
and released not once but never: the process is ended by the `free` of line 194, with the
status of `abort`, before the release calls of lines 196-201. -/
theorem handles_created_never_released :
    exitCode (main Config.program envOk) = 134 ∧
    (∀ o ∈ [Obj.context, Obj.program, Obj.kernel, Obj.input_image, Obj.output_image,
        Obj.queue],
      (creations (main Config.program envOk).trace).count o = 1 ∧
      (releases (main Config.program envOk).trace).count o = 0) ∧
    (∀ e ∈ (main Config.program envOk).trace, e.releases = none) := by
  decide

/-! ## Host buffers -/

/-- C9 (the code at the values of the program). With `SCALE_FACTOR = 4` and
`width = height = 4`, the run on which every call succeeds reads the 16 by 16 output
image, 2 bytes per pixel, into `output_pixels`: 512 bytes, while `output_pixels`, an
array of `16 * SCALE_FACTOR = 64` floats, holds 256 bytes.  The read-back does not
fit. -/
theorem readback_exceeds_output_pixels :
    exitCode (main Config.program envOk) ≠ 1 ∧
    hostWrites (main Config.program envOk).trace = [(.output_pixels, 512)] ∧
    outputPixelsBytes Config.program = 256 ∧
    ¬ 512 ≤ outputPixelsBytes Config.program := by
  decide

/-- The bytes read back and the bytes of `output_pixels` for every scale factor, with the
width and height 4 of the program: the read-back fits only up to a scale factor of 2. -/
theorem readback_fits_iff (s : Nat) (hs : s < 2 ^ 32) (env : Env)
    (h : exitCode (main ⟨s, 4, 4⟩ env) ≠ 1) :
    hostWrites (main ⟨s, 4, 4⟩ env).trace = [(.output_pixels, 32 * s * s)] ∧
    (32 * s * s ≤ outputPixelsBytes ⟨s, 4, 4⟩ ↔ s ≤ 2) := by
  obtain ⟨d, hd⟩ := main_passes _ env h
  have hm : mulSize s 4 = s * 4 := mulSize_eq _ _ (by unfold SIZE_BITS; omega)
  constructor
  · rw [hd]
    cases d <;>
      simp [Res.trace, hostWrites, imageFormatOf, callsDevice, callsMain, readImageBytes,
        ImageFormat.pixelBytes, ChannelOrder.channels, ChannelType.bytes, hm] <;> ring
  · unfold outputPixelsBytes SIZEOF_FLOAT
    simp only
    constructor
    · intro hle
      by_contra hgt
      have : 3 ≤ s := by omega
      nlinarith
    · intro hle
      interval_cases s <;> omega

/-! ## The build option -/

theorem formatU_length (v : Nat) : (formatU v).length ≤ 10 := by
  unfold formatU
  apply Nat.repr_length _ 10 (by decide)
  have : v % 2 ^ 32 < 2 ^ 32 := Nat.mod_lt _ (by decide)
  omega

/-- C10. For every scale factor representable as a 32-bit unsigned integer: the option
text formatted by `sprintf` and passed to `clBuildProgram` is "-DSCALE=" followed by the
decimal digits of the scale factor, the same scale factor that sizes the output image;
that text has at most 19 characters, so that with its terminating NUL it fits the 20
bytes of `arg`. -/
theorem build_option (cfg : Config) (env : Env) (hs : cfg.SCALE_FACTOR < 2 ^ 32) :
    (∀ o ∈ buildOptions (main cfg env).trace, o = "-DSCALE=" ++ Nat.repr cfg.SCALE_FACTOR) ∧
    (∀ e ∈ (main cfg env).trace, ∀ text, e = Event.sprintf text →
      text = "-DSCALE=" ++ Nat.repr cfg.SCALE_FACTOR) ∧
    (exitCode (main cfg env) ≠ 1 →
      buildOptions (main cfg env).trace = ["-DSCALE=" ++ Nat.repr cfg.SCALE_FACTOR] ∧
      outputImageDims (main cfg env).trace =
        [(mulSize cfg.SCALE_FACTOR cfg.width, mulSize cfg.SCALE_FACTOR cfg.height)]) ∧
    ("-DSCALE=" ++ Nat.repr cfg.SCALE_FACTOR).length ≤ 19 ∧
    ("-DSCALE=" ++ Nat.repr cfg.SCALE_FACTOR).length + 1 ≤ ARG_SIZE := by
  have hf : formatU cfg.SCALE_FACTOR = Nat.repr cfg.SCALE_FACTOR := by
    unfold formatU
    rw [Nat.mod_eq_of_lt hs]
  have hlen : ("-DSCALE=" ++ Nat.repr cfg.SCALE_FACTOR).length ≤ 18 := by
    have h10 := formatU_length cfg.SCALE_FACTOR
    rw [hf] at h10
    rw [String.length_append]
    have h8 : ("-DSCALE=" : String).length = 8 := by decide
    omega
  refine ⟨?_, ?_, ?_, by omega, by unfold ARG_SIZE; omega⟩
  · intro o ho
    unfold buildOptions at ho
    obtain ⟨d, hd⟩ := mem_filterMap_trace _ (by
      intro e he
      cases e <;> first | rfl | simp [Event.isAside] at he) cfg env o ho
    rw [← hf]
    simpa [callsMain] using hd
  · intro e he text htext
    have hmem : text ∈ (main cfg env).trace.filterMap
        (fun e => match e with | .sprintf t => some t | _ => none) :=
      List.mem_filterMap.mpr ⟨e, he, by rw [htext]⟩
    obtain ⟨d, hd⟩ := mem_filterMap_trace _ (by
      intro e he
      cases e <;> first | rfl | simp [Event.isAside] at he) cfg env text hmem
    rw [← hf]
    simpa [callsMain] using hd
  · intro h
    refine ⟨?_, (output_image_dims_wrapped cfg env).2.2 h |>.1⟩
    obtain ⟨d, hd⟩ := main_passes cfg env h
    rw [hd, ← hf]
    cases d <;> simp [Res.trace, buildOptions, callsDevice, callsMain]

/-- Witness for C10: the scale factor 4 of the program gives the option "-DSCALE=4", and
the largest 32-bit scale factor an option of 18 characters. -/
theorem build_option_witness :
    Config.program.SCALE_FACTOR < 2 ^ 32 ∧
    buildOptions (main Config.program envOk).trace = ["-DSCALE=4"] ∧
    ("-DSCALE=" ++ Nat.repr 4294967295).length = 18 ∧
    ("-DSCALE=" ++ Nat.repr 4294967295).length + 1 ≤ ARG_SIZE :=
  ⟨by decide, ((build_option Config.program envOk (by decide)).2.2.1 (by decide)).1,
    by decide, (build_option ⟨4294967295, 4, 4⟩ envOk (by decide)).2.2.2.2⟩

end InterpImage
